import Mathlib

/-!
# Verification of the stream-chat aggregation server

A shallow embedding of `src/server.js`: the module-level session state, the
Twitch (push) message handler, the YouTube (pull) feed resolution and polling
functions, and the socket connection / start / disconnect handlers, modelled
as a deterministic step function over an explicit state record.

External I/O (the Twitch client, the YouTube API, socket.io broadcast) is
modelled by an output event list: each call the server makes to the outside
world is recorded as an `Out` event, and each result the outside world hands
back (a poll batch, an error, a feed-resolution outcome) is a parameter of
the triggering input event.  Timestamps (JS `Date` values compared with `>`)
are modelled as natural numbers (milliseconds since the epoch).
-/

namespace StreamChat

/-- The normalized chat message shape emitted to subscribers
(`io.emit('chat message', …)` in `server.js`): built at lines 48–55 for
Twitch and lines 101–107 for YouTube. -/
structure ChatMessage where
  id : String
  platform : String
  user : String
  text : String
  isSubscriber : Bool
  color : Option String
deriving DecidableEq, Repr

/-- The tmi.js tag payload of an inbound Twitch message: the fields the
handler at lines 45–57 reads (`tags.id`, `tags['display-name']`,
`tags.subscriber`, `tags.mod`, `tags.color`). -/
structure TwitchTags where
  id : String
  displayName : String
  subscriber : Bool
  moderator : Bool
  color : Option String
deriving DecidableEq, Repr

/-- One item of a YouTube `liveChatMessages.list` response: the fields read
at lines 99–106 (`item.id`, `item.snippet.publishedAt`,
`item.authorDetails.displayName`, `item.snippet.displayMessage`,
`item.authorDetails.isChatSponsor`). -/
structure YTItem where
  id : String
  displayName : String
  displayMessage : String
  isChatSponsor : Bool
  publishedAt : Nat
deriving DecidableEq, Repr

/-- Outcome of one `youtube.liveChatMessages.list` call inside
`fetchYoutubeMessages` (lines 89–124): a successful batch, a transient
fetch error (caught, logged, swallowed), or the terminal error whose
message includes "The live chat is no longer available" (line 118). -/
inductive PollResult where
  | batch (items : List YTItem)
  | fetchError
  | feedEnded
deriving DecidableEq, Repr

/-- Outcome of the YouTube search performed by `getLiveChatId`
(lines 60–83): a live chat id was found (line 75), the search returned no
items (line 77, returns `null` with no emission), or the API threw
(lines 78–82, emits a notice and returns `null`). -/
inductive ResolveResult where
  | found (chatId : String)
  | notFound
  | apiError
deriving DecidableEq, Repr

/-- Everything the server sends to the outside world: socket.io broadcasts
(`chat message` and `error message` events), Twitch client calls
(`connect`, `join`, `part`), and the act of issuing a YouTube
`liveChatMessages.list` request for a given live chat id. -/
inductive Out where
  | chatMessage (m : ChatMessage)
  | errorMessage (s : String)
  | twitchConnect
  | twitchJoin (channel : String)
  | twitchPart (channel : String)
  | pollFeed (chatId : String)
deriving DecidableEq, Repr

/-- The module-level mutable state of `server.js` (lines 31–34) plus the
bookkeeping needed to model JS interval timers and socket.io's client
count.  `youtubeInterval` holds the timer handle currently stored in the
`youtubeInterval` variable (it may be stale: line 120 clears the timer
without nulling the variable); `activeTimers` holds the handles of timers
that are actually scheduled (a handle overwritten at line 150 without
`clearInterval` keeps running); `nextTimerId` is a fresh-handle counter;
`clientsCount` models `io.engine.clientsCount`. -/
structure ServerState where
  twitchChannel : Option String
  youtubeLiveChatId : Option String
  youtubeInterval : Option Nat
  lastYoutubeCheck : Option Nat
  activeTimers : List Nat
  nextTimerId : Nat
  clientsCount : Nat
deriving DecidableEq, Repr

/-- The state at module load: all four state variables `null`
(lines 31–34), no timers, no connected clients. -/
def initialState : ServerState :=
  { twitchChannel := none
    youtubeLiveChatId := none
    youtubeInterval := none
    lastYoutubeCheck := none
    activeTimers := []
    nextTimerId := 0
    clientsCount := 0 }

/-- Normalization of a Twitch message (lines 48–55): `isSubscriber` is
`tags.subscriber || tags.mod`. -/
def normalizeTwitch (tags : TwitchTags) (message : String) : ChatMessage :=
  { id := tags.id
    platform := "Twitch"
    user := tags.displayName
    text := message
    isSubscriber := tags.subscriber || tags.moderator
    color := tags.color }

/-- Normalization of a YouTube item (lines 101–107): `isSubscriber` is
`isChatSponsor`, and no color is supplied. -/
def normalizeYoutube (item : YTItem) : ChatMessage :=
  { id := item.id
    platform := "YouTube"
    user := item.displayName
    text := item.displayMessage
    isSubscriber := item.isChatSponsor
    color := none }

/-- The `twitchClient.on('message', …)` handler (lines 45–57): if the
library's `self` flag is set, return immediately with no emission;
otherwise emit the normalized message to everyone. -/
def twitchOnMessage (tags : TwitchTags) (message : String) (self : Bool) :
    List Out :=
  if self then [] else [Out.chatMessage (normalizeTwitch tags message)]

/-- Modelled from the spec: the push-transport client library (an excluded
external collaborator, §1/§6) computes the `self` flag it passes to the
message handler; per §4.1 only the connector's transport knows the bot's
own identity, and `self` marks exactly the inbound raw messages whose
author is the connected bot identity. -/
def tmiSelfFlag (identity : String) (tags : TwitchTags) : Bool :=
  tags.displayName == identity

/-- The dedup filter at line 100:
`!lastYoutubeCheck || publishedAt > lastYoutubeCheck`. -/
def passesWatermark (watermark : Option Nat) (item : YTItem) : Bool :=
  match watermark with
  | none => true
  | some w => w < item.publishedAt

/-- `getLiveChatId` (lines 60–83) as a function of the search outcome:
the returned optional live chat id and the emissions it performs.  Only
the catch path (lines 78–82) emits a notice; an empty search result
returns `null` silently (line 77). -/
def getLiveChatId : ResolveResult → Option String × List Out
  | .found chatId => (some chatId, [])
  | .notFound => (none, [])
  | .apiError =>
      (none,
       [Out.errorMessage
          "Could not find an active YouTube live stream for that channel."])

/-- `fetchYoutubeMessages` (lines 85–125) as a function of the state and of
what the YouTube API answered.  If `youtubeLiveChatId` is `null` the
function returns at once (line 86) and no API request is issued.  On a
batch, each item passing the line-100 filter is emitted in order, and if
the batch is non-empty the watermark is set to the publish time of its
last item (line 112).  On a transient error nothing changes.  On the
terminal error the interval is cleared (but the `youtubeInterval`
variable is not nulled), `youtubeLiveChatId` is nulled, and the
"ended" notice is emitted (lines 118–123). -/
def fetchYoutubeMessages (s : ServerState) (r : PollResult) :
    ServerState × List Out :=
  match s.youtubeLiveChatId with
  | none => (s, [])
  | some chatId =>
    match r with
    | .batch items =>
        let forwarded :=
          (items.filter (passesWatermark s.lastYoutubeCheck)).map
            (fun item => Out.chatMessage (normalizeYoutube item))
        let s' :=
          match items.getLast? with
          | none => s
          | some last => { s with lastYoutubeCheck := some last.publishedAt }
        (s', Out.pollFeed chatId :: forwarded)
    | .fetchError => (s, [Out.pollFeed chatId])
    | .feedEnded =>
        ({ s with
            activeTimers :=
              match s.youtubeInterval with
              | none => s.activeTimers
              | some h => s.activeTimers.filter (fun t => t ≠ h)
            youtubeLiveChatId := none },
         [Out.pollFeed chatId,
          Out.errorMessage "YouTube Live Chat has ended."])

/-- The `socket.on('start connection', …)` handler (lines 132–153).
`twitchCh` is `data.twitchChannel`; `yt` carries `data.youtubeChannelId`'s
resolution outcome together with the wall-clock time `new Date()` read at
line 145.  The Twitch branch unconditionally stores the channel, connects
and joins (lines 136–141).  The YouTube branch first sets the watermark to
the current time (line 145), then stores whatever `getLiveChatId`
returned (line 146), and only if that is non-null schedules a new
interval timer (line 150), overwriting the previous handle. -/
def startConnection (s : ServerState) (twitchCh : Option String)
    (yt : Option (ResolveResult × Nat)) : ServerState × List Out :=
  let (s₁, out₁) :=
    match twitchCh with
    | none => (s, ([] : List Out))
    | some ch =>
        ({ s with twitchChannel := some ch },
         [Out.twitchConnect, Out.twitchJoin ch])
  match yt with
  | none => (s₁, out₁)
  | some (res, now) =>
      let s₂ := { s₁ with lastYoutubeCheck := some now }
      let (chatId, out₂) := getLiveChatId res
      let s₃ := { s₂ with youtubeLiveChatId := chatId }
      match chatId with
      | none => (s₃, out₁ ++ out₂)
      | some _ =>
          ({ s₃ with
              youtubeInterval := some s₃.nextTimerId
              activeTimers := s₃.nextTimerId :: s₃.activeTimers
              nextTimerId := s₃.nextTimerId + 1 },
           out₁ ++ out₂)

/-- The `socket.on('disconnect', …)` handler (lines 155–171), run after
socket.io has already decremented `clientsCount`.  Only when the count has
reached zero: part from the Twitch channel and null it (lines 159–163),
and if the `youtubeInterval` variable is set, clear the timer and null
both it and `youtubeLiveChatId` (lines 164–169).  `lastYoutubeCheck` is
not touched. -/
def disconnectCleanup (s : ServerState) : ServerState × List Out :=
  if s.clientsCount = 0 then
    let (s₁, out₁) :=
      match s.twitchChannel with
      | none => (s, ([] : List Out))
      | some ch =>
          ({ s with twitchChannel := none }, [Out.twitchPart ch])
    let s₂ :=
      match s₁.youtubeInterval with
      | none => s₁
      | some h =>
          { s₁ with
              activeTimers := s₁.activeTimers.filter (fun t => t ≠ h)
              youtubeInterval := none
              youtubeLiveChatId := none }
    (s₂, out₁)
  else (s, [])

/-- An externally-triggered event the server reacts to: a socket
connection, a `start connection` request, an inbound Twitch message, a
firing of interval timer `h` whose `fetchYoutubeMessages` call got the
given API answer, or a socket disconnection. -/
inductive Ev where
  | connect
  | startReq (twitchCh : Option String) (yt : Option (ResolveResult × Nat))
  | twitchMsg (tags : TwitchTags) (message : String) (self : Bool)
  | tick (h : Nat) (r : PollResult)
  | disconnect
deriving DecidableEq, Repr

/-- One step of the server: dispatch an event to its handler.  A timer
tick has an effect only if its handle is still scheduled; a disconnect
first decrements the client count (socket.io does this before the
handler runs), then runs the cleanup handler. -/
def step (s : ServerState) : Ev → ServerState × List Out
  | .connect => ({ s with clientsCount := s.clientsCount + 1 }, [])
  | .startReq twitchCh yt => startConnection s twitchCh yt
  | .twitchMsg tags message self => (s, twitchOnMessage tags message self)
  | .tick h r =>
      if h ∈ s.activeTimers then fetchYoutubeMessages s r else (s, [])
  | .disconnect =>
      disconnectCleanup { s with clientsCount := s.clientsCount - 1 }

/-- Run a sequence of events from a state, accumulating all emissions in
order. -/
def run (s : ServerState) : List Ev → ServerState × List Out
  | [] => (s, [])
  | e :: es =>
      let (s₁, out₁) := step s e
      let (s₂, out₂) := run s₁ es
      (s₂, out₁ ++ out₂)

/-! ## Concrete sample data for witnesses and counterexamples -/

/-- A sample YouTube item with identifier `i` published at time `t`. -/
def sampleItem (i : String) (t : Nat) : YTItem :=
  { id := i, displayName := "viewer", displayMessage := "hello",
    isChatSponsor := false, publishedAt := t }

/-- A sample state in which the pull connector is attached to live chat
"chat", timer 0 is scheduled, and the watermark is `w`. -/
def pollingState (w : Nat) : ServerState :=
  { twitchChannel := none
    youtubeLiveChatId := some "chat"
    youtubeInterval := some 0
    lastYoutubeCheck := some w
    activeTimers := [0]
    nextTimerId := 1
    clientsCount := 1 }

/-! ## Helper lemmas -/

theorem passesWatermark_some (w : Nat) (item : YTItem) :
    passesWatermark (some w) item = decide (w < item.publishedAt) := rfl

/-- Unfolding of a successful batch poll when a live chat id is present. -/
theorem fetch_batch_eq (s : ServerState) (chatId : String)
    (items : List YTItem) (hc : s.youtubeLiveChatId = some chatId) :
    fetchYoutubeMessages s (.batch items) =
      ((match items.getLast? with
        | none => s
        | some last => { s with lastYoutubeCheck := some last.publishedAt }),
       Out.pollFeed chatId ::
         (items.filter (passesWatermark s.lastYoutubeCheck)).map
           (fun item => Out.chatMessage (normalizeYoutube item))) := by
  simp [fetchYoutubeMessages, hc]

/-! ## Claims -/

/-- C1.  For every poll of the pull connector holding a watermark `w`, the
emissions of the poll are exactly one API request followed by the
normalizations, in order, of those fetched items whose publish time is
strictly greater than `w`: no item with publish time `≤ w` is ever
forwarded to subscribers. -/
theorem forwarded_items_strictly_newer_than_watermark
    (s : ServerState) (chatId : String) (w : Nat) (items : List YTItem)
    (hc : s.youtubeLiveChatId = some chatId)
    (hw : s.lastYoutubeCheck = some w) :
    (fetchYoutubeMessages s (.batch items)).2 =
      Out.pollFeed chatId ::
        (items.filter (fun item => w < item.publishedAt)).map
          (fun item => Out.chatMessage (normalizeYoutube item)) := by
  rw [fetch_batch_eq s chatId items hc, hw]
  rfl

/-- Witness for C1: a concrete poll with watermark 10 over publish times
5 and 15 forwards only the item published at 15. -/
theorem forwarded_items_strictly_newer_than_watermark_witness :
    (fetchYoutubeMessages (pollingState 10)
        (.batch [sampleItem "a" 5, sampleItem "b" 15])).2 =
      Out.pollFeed "chat" ::
        (([sampleItem "a" 5, sampleItem "b" 15]).filter
            (fun item => 10 < item.publishedAt)).map
          (fun item => Out.chatMessage (normalizeYoutube item)) :=
  forwarded_items_strictly_newer_than_watermark _ "chat" 10 _ rfl rfl

/-- C2 counterexample.  A non-empty poll on which the watermark does not
strictly move forward: with watermark 30 and a returned batch whose single
item was published at 20, the watermark after the poll is 20, which is
smaller, not larger, than 30. -/
theorem watermark_can_move_backward :
    (pollingState 30).lastYoutubeCheck = some 30 ∧
    (fetchYoutubeMessages (pollingState 30)
        (.batch [sampleItem "a" 20])).1.lastYoutubeCheck = some 20 ∧
    ¬ (30 : Nat) < 20 :=
  ⟨rfl, rfl, by decide⟩

/-- C2 (amended).  On every poll that returns a non-empty batch, the
watermark is set to the publish time of the last item of the returned
batch, even if some of that batch was filtered out; consequently the
watermark strictly moves forward on a non-empty poll exactly when that
last item's publish time exceeds the watermark held before the poll (and
can stand still or move backward otherwise). -/
theorem watermark_set_to_last_batch_item
    (s : ServerState) (chatId : String) (items : List YTItem) (last : YTItem)
    (hc : s.youtubeLiveChatId = some chatId)
    (hlast : items.getLast? = some last) :
    (fetchYoutubeMessages s (.batch items)).1.lastYoutubeCheck =
      some last.publishedAt := by
  rw [fetch_batch_eq s chatId items hc]
  simp [hlast]

/-- Witness for C2 (amended): the poll of the C2 counterexample indeed
sets the watermark to the last (and only) batch item's publish time. -/
theorem watermark_set_to_last_batch_item_witness :
    (fetchYoutubeMessages (pollingState 30)
        (.batch [sampleItem "a" 20])).1.lastYoutubeCheck = some 20 :=
  watermark_set_to_last_batch_item _ "chat" _ (sampleItem "a" 20) rfl rfl

/-- C3 counterexample.  The watermark is not monotonically non-decreasing
for every possible sequence of returned batches: one poll returning a
batch whose last item was published at 20 drops a watermark of 30 down to
20. -/
theorem watermark_not_monotone :
    (pollingState 30).lastYoutubeCheck = some 30 ∧
    (fetchYoutubeMessages (pollingState 30)
        (.batch [sampleItem "b" 20])).1.lastYoutubeCheck = some 20 ∧
    ¬ (30 : Nat) ≤ 20 :=
  ⟨rfl, rfl, by decide⟩

/-- C3 (amended).  Across any poll whose returned batch (if non-empty) has
its last item published no earlier than the watermark held before the
poll — the overlapping-window guarantee the spec assumes of the feed —
the watermark is monotonically non-decreasing: whatever the poll result
(batch, transient error, or terminal error), the watermark after the poll
is at least the watermark before it. -/
theorem watermark_monotone_under_window_assumption
    (s : ServerState) (r : PollResult) (w w' : Nat)
    (hw : s.lastYoutubeCheck = some w)
    (hwindow : ∀ items last, r = .batch items → items.getLast? = some last →
      w ≤ last.publishedAt)
    (hw' : (fetchYoutubeMessages s r).1.lastYoutubeCheck = some w') :
    w ≤ w' := by
  cases hcid : s.youtubeLiveChatId with
  | none =>
      simp [fetchYoutubeMessages, hcid, hw] at hw'
      omega
  | some chatId =>
      cases r with
      | batch items =>
          rw [fetch_batch_eq s chatId items hcid] at hw'
          cases hlast : items.getLast? with
          | none =>
              simp [hlast, hw] at hw'
              omega
          | some last =>
              simp [hlast] at hw'
              have := hwindow items last rfl hlast
              omega
      | fetchError =>
          simp [fetchYoutubeMessages, hcid, hw] at hw'
          omega
      | feedEnded =>
          simp [fetchYoutubeMessages, hcid, hw] at hw'
          omega

/-- Witness for C3 (amended): with watermark 10 and a batch ending at
publish time 15, the watermark after the poll (15) is at least 10. -/
theorem watermark_monotone_under_window_assumption_witness :
    (10 : Nat) ≤ 15 :=
  watermark_monotone_under_window_assumption
    (pollingState 10) (.batch [sampleItem "b" 15]) 10 15 rfl
    (by
      intro items last hbatch hlast
      cases hbatch
      have h : some (sampleItem "b" 15) = some last := hlast
      injection h with h₂
      rw [← h₂]
      decide)
    rfl

/-- Sample tmi.js tags whose author display name is "bot". -/
def sampleTags : TwitchTags :=
  { id := "1", displayName := "bot", subscriber := false,
    moderator := false, color := none }

/-- C4.  An inbound raw push-source message authored by the connected bot
identity — so the transport library passes `self = true` to the handler —
produces zero emissions: the handler returns before building or
broadcasting any chat-message event, whatever the session state. -/
theorem self_messages_suppressed
    (s : ServerState) (identity : String) (tags : TwitchTags)
    (message : String) (hauthor : tags.displayName = identity) :
    (step s (.twitchMsg tags message (tmiSelfFlag identity tags))).2 = [] := by
  simp [step, twitchOnMessage, tmiSelfFlag, hauthor]

/-- Witness for C4: the connected identity "bot" sends "hello", and the
handler emits nothing. -/
theorem self_messages_suppressed_witness :
    (step initialState
        (.twitchMsg sampleTags "hello" (tmiSelfFlag "bot" sampleTags))).2 =
      [] :=
  self_messages_suppressed initialState "bot" sampleTags "hello" rfl

/-- C9.  A disconnect that leaves the remaining subscriber count above
zero is a pure frame event: the resulting state is the old state with
only the client count decremented — push handle, pull handle, watermark,
timer variable and scheduled timers all untouched — and nothing is
emitted.  Teardown can therefore only be triggered by the disconnect that
brings the count to 0. -/
theorem disconnect_above_zero_changes_nothing
    (s : ServerState) (h : 2 ≤ s.clientsCount) :
    (step s .disconnect).1 = { s with clientsCount := s.clientsCount - 1 } ∧
    (step s .disconnect).2 = [] := by
  have hne : ¬ s.clientsCount - 1 = 0 := by omega
  simp [step, disconnectCleanup, hne]

/-- Witness for C9: with 2 clients, a Twitch channel, a live chat id and a
scheduled timer, one disconnect only decrements the count. -/
theorem disconnect_above_zero_changes_nothing_witness :
    (step { pollingState 7 with clientsCount := 2 } .disconnect).1 =
      { ({ pollingState 7 with clientsCount := 2 } : ServerState) with
          clientsCount := 2 - 1 } ∧
    (step { pollingState 7 with clientsCount := 2 } .disconnect).2 = [] :=
  disconnect_above_zero_changes_nothing
    { pollingState 7 with clientsCount := 2 } (by decide)

/-- C6 counterexample.  Teardown on the last disconnect does not clear the
watermark: from a fully-populated session state with watermark 42, the
disconnect that brings the count to 0 leaves `lastYoutubeCheck = 42`
(lines 155–171 never touch it), so not every field of the session state
is cleared. -/
theorem teardown_keeps_watermark :
    (pollingState 42).clientsCount = 1 ∧
    (step (pollingState 42) .disconnect).1.clientsCount = 0 ∧
    (step (pollingState 42) .disconnect).1.lastYoutubeCheck = some 42 ∧
    ¬ (step (pollingState 42) .disconnect).1.lastYoutubeCheck = none :=
  ⟨rfl, rfl, rfl, by decide⟩

/-- C6 (amended).  When the subscriber count returns to 0, the push-source
handle, the pull-source handle and the polling schedule are cleared —
the Twitch channel and the interval variable are nulled, and the held
timer handle is descheduled, which also nulls the live chat id — but the
watermark field is left exactly as it was; it is only re-initialized by
the next start request that names a pull channel. -/
theorem teardown_clears_handles_not_watermark
    (s : ServerState) (hcount : s.clientsCount = 1) :
    (step s .disconnect).1.twitchChannel = none ∧
    (step s .disconnect).1.youtubeInterval = none ∧
    (∀ h, s.youtubeInterval = some h →
      h ∉ (step s .disconnect).1.activeTimers ∧
      (step s .disconnect).1.youtubeLiveChatId = none) ∧
    (step s .disconnect).1.lastYoutubeCheck = s.lastYoutubeCheck ∧
    (step s .disconnect).1.clientsCount = 0 := by
  simp only [step, disconnectCleanup, hcount]
  cases htc : s.twitchChannel with
  | none =>
      cases hiv : s.youtubeInterval with
      | none => simp [htc, hiv]
      | some h => simp [htc, hiv, List.mem_filter]
  | some ch =>
      cases hiv : s.youtubeInterval with
      | none => simp [htc, hiv]
      | some h => simp [htc, hiv, List.mem_filter]

/-- Witness for C6 (amended): tearing down `pollingState 42` clears both
handles and deschedules timer 0 while keeping watermark 42. -/
theorem teardown_clears_handles_not_watermark_witness :
    (step (pollingState 42) .disconnect).1.twitchChannel = none ∧
    (step (pollingState 42) .disconnect).1.youtubeInterval = none ∧
    (∀ h, (pollingState 42).youtubeInterval = some h →
      h ∉ (step (pollingState 42) .disconnect).1.activeTimers ∧
      (step (pollingState 42) .disconnect).1.youtubeLiveChatId = none) ∧
    (step (pollingState 42) .disconnect).1.lastYoutubeCheck =
      (pollingState 42).lastYoutubeCheck ∧
    (step (pollingState 42) .disconnect).1.clientsCount = 0 :=
  teardown_clears_handles_not_watermark (pollingState 42) rfl

/-- A state already joined to Twitch channel "abc" with one subscriber. -/
def joinedState : ServerState :=
  { initialState with twitchChannel := some "abc", clientsCount := 1 }

/-- C7 counterexample.  Re-issuing a start request for a channel that is
already joined does re-join it: from a state whose Twitch channel is
already "abc", a second start request naming "abc" issues `join("abc")`
to the Twitch client again. -/
theorem second_start_rejoins :
    joinedState.twitchChannel = some "abc" ∧
    Out.twitchJoin "abc" ∈ (step joinedState (.startReq (some "abc") none)).2 :=
  ⟨rfl, by decide⟩

/-- C7 (amended).  A start request naming a push channel is never a no-op
for an already-attached source: it unconditionally issues connect and
join for that channel again, even when the session is already joined to
that very channel. -/
theorem start_always_rejoins
    (s : ServerState) (ch : String) (yt : Option (ResolveResult × Nat))
    (halready : s.twitchChannel = some ch) :
    Out.twitchJoin ch ∈ (step s (.startReq (some ch) yt)).2 := by
  cases yt with
  | none => simp [step, startConnection]
  | some p =>
      obtain ⟨res, now⟩ := p
      cases res <;> simp [step, startConnection, getLiveChatId]

/-- Witness for C7 (amended): a second start request naming "abc" from
`joinedState` emits `join("abc")` again. -/
theorem start_always_rejoins_witness :
    Out.twitchJoin "abc" ∈ (step joinedState (.startReq (some "abc") none)).2 :=
  start_always_rejoins joinedState "abc" none rfl

/-- C8 counterexample.  When the feed search legitimately finds no live
stream (`response.data.items` is empty), `getLiveChatId` returns `null`
and the start request emits nothing at all: the user-visible notice the
claim promises exists only on the API-error path, not on the
empty-search path. -/
theorem feed_not_found_is_silent :
    getLiveChatId .notFound = (none, []) ∧
    (step initialState (.startReq none (some (.notFound, 100)))).2 = [] ∧
    (step initialState
        (.startReq none (some (.notFound, 100)))).1.youtubeLiveChatId =
      none ∧
    (step initialState
        (.startReq none (some (.notFound, 100)))).1.activeTimers = [] :=
  ⟨rfl, rfl, rfl, rfl⟩

/-- C8 (amended).  When no active pull feed is discoverable for the
requested channel, `getLiveChatId` returns `null` rather than failing and
no pull connector attaches: the stored live chat id ends up `null`, no
new timer is scheduled and the interval variable is untouched.  A
user-visible notice is emitted only when the search failed with an API
error; the legitimate empty-search outcome is silent. -/
theorem no_feed_no_attach
    (s : ServerState) (res : ResolveResult) (t : Nat)
    (hres : (getLiveChatId res).1 = none) :
    (step s (.startReq none (some (res, t)))).1.youtubeLiveChatId = none ∧
    (step s (.startReq none (some (res, t)))).1.activeTimers =
      s.activeTimers ∧
    (step s (.startReq none (some (res, t)))).1.youtubeInterval =
      s.youtubeInterval ∧
    (step s (.startReq none (some (res, t)))).2 =
      (if res = .apiError then
        [Out.errorMessage
          "Could not find an active YouTube live stream for that channel."]
       else []) := by
  cases res with
  | found c => simp [getLiveChatId] at hres
  | notFound => simp [step, startConnection, getLiveChatId]
  | apiError => simp [step, startConnection, getLiveChatId]

/-- Witness for C8 (amended): an empty search at time 100 from the initial
state attaches nothing and emits nothing. -/
theorem no_feed_no_attach_witness :
    (step initialState
        (.startReq none (some (.notFound, 100)))).1.youtubeLiveChatId =
      none ∧
    (step initialState
        (.startReq none (some (.notFound, 100)))).1.activeTimers =
      initialState.activeTimers ∧
    (step initialState
        (.startReq none (some (.notFound, 100)))).1.youtubeInterval =
      initialState.youtubeInterval ∧
    (step initialState (.startReq none (some (.notFound, 100)))).2 =
      (if (ResolveResult.notFound : ResolveResult) = .apiError then
        [Out.errorMessage
          "Could not find an active YouTube live stream for that channel."]
       else []) :=
  no_feed_no_attach initialState .notFound 100 rfl

/-- Whether an event is a `start connection` request. -/
def isStartReq : Ev → Bool
  | .startReq _ _ => true
  | _ => false

/-- With a null live chat id and no new start request, one step keeps the
live chat id null, issues no YouTube poll and emits no "ended" notice. -/
theorem step_quiescent (s : ServerState) (ev : Ev)
    (hc : s.youtubeLiveChatId = none) (hev : isStartReq ev = false) :
    (step s ev).1.youtubeLiveChatId = none ∧
    (∀ c, Out.pollFeed c ∉ (step s ev).2) ∧
    Out.errorMessage "YouTube Live Chat has ended." ∉ (step s ev).2 := by
  cases ev with
  | connect => simp [step, hc]
  | startReq tw yt => simp [isStartReq] at hev
  | twitchMsg tags message self =>
      cases self <;> simp [step, twitchOnMessage, hc]
  | tick h r =>
      by_cases hmem : h ∈ s.activeTimers <;>
        simp [step, hmem, fetchYoutubeMessages, hc]
  | disconnect =>
      simp only [step, disconnectCleanup]
      cases htc : s.twitchChannel <;> cases hiv : s.youtubeInterval <;>
        by_cases hz : s.clientsCount - 1 = 0 <;>
          simp [htc, hiv, hz, hc]

/-- With a null live chat id, any run of events containing no new start
request keeps the live chat id null, never issues a YouTube poll and
never emits the "ended" notice. -/
theorem run_quiescent (evs : List Ev) (s : ServerState)
    (hc : s.youtubeLiveChatId = none)
    (hevs : ∀ ev ∈ evs, isStartReq ev = false) :
    (run s evs).1.youtubeLiveChatId = none ∧
    (∀ c, Out.pollFeed c ∉ (run s evs).2) ∧
    Out.errorMessage "YouTube Live Chat has ended." ∉ (run s evs).2 := by
  induction evs generalizing s with
  | nil => simpa [run] using hc
  | cons ev evs ih =>
      obtain ⟨h₁, h₂, h₃⟩ :=
        step_quiescent s ev hc (hevs ev (List.mem_cons_self ev evs))
      obtain ⟨g₁, g₂, g₃⟩ :=
        ih (step s ev).1 h₁ (fun e he => hevs e (List.mem_cons_of_mem ev he))
      refine ⟨by simpa [run] using g₁, ?_, ?_⟩
      · intro c
        simp only [run, List.mem_append]
        push_neg
        exact ⟨h₂ c, g₂ c⟩
      · simp only [run, List.mem_append]
        push_neg
        exact ⟨h₃, g₃⟩

/-- C5.  When a scheduled poll reports the terminal feed-ended condition:
the "feed ended" notice is emitted exactly once in that step, the
pull-source handle is cleared and the polling timer descheduled, and
along any subsequent sequence of events that contains no new start
request, no YouTube poll is ever issued again (on that feed handle or any
other) and the "ended" notice is never emitted again. -/
theorem feed_ended_is_terminal
    (s : ServerState) (chatId : String) (h : Nat) (evs : List Ev)
    (hc : s.youtubeLiveChatId = some chatId)
    (hi : s.youtubeInterval = some h)
    (hmem : h ∈ s.activeTimers)
    (hevs : ∀ ev ∈ evs, isStartReq ev = false) :
    ((step s (.tick h .feedEnded)).2).count
        (Out.errorMessage "YouTube Live Chat has ended.") = 1 ∧
    (step s (.tick h .feedEnded)).1.youtubeLiveChatId = none ∧
    h ∉ (step s (.tick h .feedEnded)).1.activeTimers ∧
    (∀ c, Out.pollFeed c ∉ (run (step s (.tick h .feedEnded)).1 evs).2) ∧
    Out.errorMessage "YouTube Live Chat has ended." ∉
      (run (step s (.tick h .feedEnded)).1 evs).2 := by
  have hstep : step s (.tick h .feedEnded) =
      ({ s with
          activeTimers := s.activeTimers.filter (fun t => t ≠ h)
          youtubeLiveChatId := none },
       [Out.pollFeed chatId,
        Out.errorMessage "YouTube Live Chat has ended."]) := by
    simp [step, hmem, fetchYoutubeMessages, hc, hi]
  rw [hstep]
  obtain ⟨g₁, g₂, g₃⟩ :=
    run_quiescent evs
      { s with
          activeTimers := s.activeTimers.filter (fun t => t ≠ h)
          youtubeLiveChatId := none }
      rfl hevs
  refine ⟨by simp, rfl, by simp [List.mem_filter], g₂, g₃⟩

/-- Witness for C5: from `pollingState 10` (chat id "chat", timer 0
scheduled), timer 0 reporting feed-ended tears the feed down, and a
subsequent successful-looking tick plus a disconnect issue no further
poll and no second notice. -/
theorem feed_ended_is_terminal_witness :
    ((step (pollingState 10) (.tick 0 .feedEnded)).2).count
        (Out.errorMessage "YouTube Live Chat has ended.") = 1 ∧
    (step (pollingState 10) (.tick 0 .feedEnded)).1.youtubeLiveChatId =
      none ∧
    0 ∉ (step (pollingState 10) (.tick 0 .feedEnded)).1.activeTimers ∧
    (∀ c, Out.pollFeed c ∉
      (run (step (pollingState 10) (.tick 0 .feedEnded)).1
        [Ev.tick 0 (.batch [sampleItem "a" 99]), Ev.disconnect]).2) ∧
    Out.errorMessage "YouTube Live Chat has ended." ∉
      (run (step (pollingState 10) (.tick 0 .feedEnded)).1
        [Ev.tick 0 (.batch [sampleItem "a" 99]), Ev.disconnect]).2 :=
  feed_ended_is_terminal (pollingState 10) "chat" 0
    [Ev.tick 0 (.batch [sampleItem "a" 99]), Ev.disconnect]
    rfl rfl (by decide)
    (by
      intro ev hev
      simp only [List.mem_cons, List.not_mem_nil, or_false] at hev
      rcases hev with h | h <;> rw [h] <;> rfl)

/-- C10 counterexample.  A start request at time 10 initializes the
watermark to 10, but an item published at time 7 — at or before the start
moment — is nevertheless forwarded later: the first poll's batch ends at
publish time 5, dragging the watermark down to 5, so the second poll
forwards the item published at 7. -/
theorem pre_start_item_forwarded_later :
    Out.chatMessage (normalizeYoutube (sampleItem "c" 7)) ∈
      (run initialState
        [Ev.connect, Ev.startReq none (some (.found "chat", 10)),
         Ev.tick 0 (.batch [sampleItem "a" 5]),
         Ev.tick 0 (.batch [sampleItem "a" 5, sampleItem "c" 7])]).2 ∧
    (sampleItem "c" 7).publishedAt ≤ 10 :=
  ⟨by decide, by decide⟩

/-- C10 (amended).  On every start request naming a pull channel whose
feed resolves, the watermark is initialized to the time of the start
request before the first poll runs, and on that first poll only items
published strictly after the start moment are forwarded.  The protection
does not extend to later polls: the first non-empty batch overwrites the
watermark with its last item's publish time, which may precede the start
time, after which items published at or before the start can be
forwarded. -/
theorem first_poll_filters_by_start_time
    (s : ServerState) (c : String) (t : Nat) (items : List YTItem) :
    (step s (.startReq none (some (.found c, t)))).1.lastYoutubeCheck =
      some t ∧
    (fetchYoutubeMessages (step s (.startReq none (some (.found c, t)))).1
        (.batch items)).2 =
      Out.pollFeed c ::
        (items.filter (fun item => t < item.publishedAt)).map
          (fun item => Out.chatMessage (normalizeYoutube item)) := by
  have hstate :
      (step s (.startReq none (some (.found c, t)))).1.lastYoutubeCheck =
        some t ∧
      (step s (.startReq none (some (.found c, t)))).1.youtubeLiveChatId =
        some c := by
    simp [step, startConnection, getLiveChatId]
  refine ⟨hstate.1, ?_⟩
  rw [fetch_batch_eq _ c items hstate.2, hstate.1]
  rfl

end StreamChat
